import Mathlib

/-!
# AURORA — Insight Aggregation & Narrative Synthesis Pipeline: verification

A shallow embedding of the AURORA pipeline.  The executable backend
(`aurora-backend`: DataAgent, VizAgent, NarrativeAgent, AuroraCoreAgent) is
not part of the checked-in sources; only its interface documentation is
(the data-structure specification and the AI connection guide).  Those
components are therefore modelled from the spec, faithful to the documented
classification standards, payload shapes and fallback contract.  The
front-end mode context (`ModeContext`) and the mirror-mode view
(`MirrorModeContent.jsx`) are embedded directly from the JavaScript source.
-/

namespace Aurora

/-! ## Data model: physiological records (mock_hrv_data.csv columns) -/

/-- One physiological record, as in `mock_hrv_data.csv`:
`id, hrv, stress_score, age`. -/
structure Record where
  id : ℤ
  hrv : ℚ
  stress_score : ℚ
  age : ℤ
  deriving Repr, DecidableEq

/-- Stress buckets `Low | Medium | High`. -/
inductive StressLevel where
  | low
  | medium
  | high
  deriving Repr, DecidableEq

/-- Age buckets `Young | Middle | Senior`. -/
inductive AgeGroup where
  | young
  | middle
  | senior
  deriving Repr, DecidableEq

/-- Modelled from the spec: the DataAgent stress-level classification
standard (documented as `Low: stress_score < 20`, `Medium: 20 ≤
stress_score ≤ 35`, `High: stress_score > 35`); the pandas implementation
is not among the checked-in sources. -/
def stressLevelOf (s : ℚ) : StressLevel :=
  if s < 20 then .low
  else if s ≤ 35 then .medium
  else .high

/-- Modelled from the spec: the DataAgent age-group classification standard
(`Young: age < 30`, `Middle: 30 ≤ age ≤ 35`, `Senior: age > 35`); the
pandas implementation is not among the checked-in sources. -/
def ageGroupOf (a : ℤ) : AgeGroup :=
  if a < 30 then .young
  else if a ≤ 35 then .middle
  else .senior

/-- The records of `recs` that fall in stress bucket `b`
(the `hrv_by_stress_level` grouping). -/
def stressBucket (recs : List Record) (b : StressLevel) : List Record :=
  recs.filter (fun r => stressLevelOf r.stress_score = b)

/-- The records of `recs` that fall in age bucket `g`
(the `hrv_by_age_group` grouping). -/
def ageBucket (recs : List Record) (g : AgeGroup) : List Record :=
  recs.filter (fun r => ageGroupOf r.age = g)

/-- `count` field of a stress bucket summary. -/
def stressBucketCount (recs : List Record) (b : StressLevel) : ℕ :=
  (stressBucket recs b).length

/-- `count` field of an age bucket summary. -/
def ageBucketCount (recs : List Record) (g : AgeGroup) : ℕ :=
  (ageBucket recs g).length

/-! ## Helper lemmas for the partition invariant -/

lemma countP_three_partition (p q w : α → Bool)
    (hexact : ∀ x, (if p x then 1 else 0) + (if q x then 1 else 0)
      + (if w x then 1 else 0) = 1) :
    ∀ l : List α, l.countP p + l.countP q + l.countP w = l.length := by
  intro l
  induction l with
  | nil => simp
  | cons a t ih =>
    have h := hexact a
    simp only [List.countP_cons, List.length_cons]
    by_cases hp : p a <;> by_cases hq : q a <;> by_cases hw : w a <;>
      simp [hp, hq, hw] at h ⊢ <;> omega

lemma stressLevelOf_exactly_one (s : ℚ) :
    (if stressLevelOf s = .low then 1 else 0)
      + (if stressLevelOf s = .medium then 1 else 0)
      + (if stressLevelOf s = .high then 1 else 0) = 1 := by
  unfold stressLevelOf
  by_cases h1 : s < 20 <;> by_cases h2 : s ≤ 35 <;> simp [h1, h2]

lemma ageGroupOf_exactly_one (a : ℤ) :
    (if ageGroupOf a = .young then 1 else 0)
      + (if ageGroupOf a = .middle then 1 else 0)
      + (if ageGroupOf a = .senior then 1 else 0) = 1 := by
  unfold ageGroupOf
  by_cases h1 : a < 30 <;> by_cases h2 : a ≤ 35 <;> simp [h1, h2]

lemma mem_stressBucket {recs : List Record} {r : Record} {b : StressLevel} :
    r ∈ stressBucket recs b ↔ r ∈ recs ∧ stressLevelOf r.stress_score = b := by
  simp [stressBucket, List.mem_filter]

lemma mem_ageBucket {recs : List Record} {r : Record} {g : AgeGroup} :
    r ∈ ageBucket recs g ↔ r ∈ recs ∧ ageGroupOf r.age = g := by
  simp [ageBucket, List.mem_filter]

/-- **C1**: for every non-empty record set, the stress-level and age-group
bucketings partition the records exactly: each record lies in exactly one
stress bucket and exactly one age bucket, and in each grouping the
per-bucket counts sum to the number of input records. -/
theorem bucket_partition (recs : List Record) (hne : recs ≠ []) :
    (stressBucketCount recs .low + stressBucketCount recs .medium
        + stressBucketCount recs .high = recs.length)
    ∧ (∀ r ∈ recs, ∃! b : StressLevel, r ∈ stressBucket recs b)
    ∧ (ageBucketCount recs .young + ageBucketCount recs .middle
        + ageBucketCount recs .senior = recs.length)
    ∧ (∀ r ∈ recs, ∃! g : AgeGroup, r ∈ ageBucket recs g) := by
  refine ⟨?_, ?_, ?_, ?_⟩
  · simp only [stressBucketCount, stressBucket, ← List.countP_eq_length_filter]
    refine countP_three_partition _ _ _ (fun r => ?_) recs
    simpa using stressLevelOf_exactly_one r.stress_score
  · intro r hr
    refine ⟨stressLevelOf r.stress_score, mem_stressBucket.2 ⟨hr, rfl⟩, ?_⟩
    intro b hb
    exact (mem_stressBucket.1 hb).2.symm
  · simp only [ageBucketCount, ageBucket, ← List.countP_eq_length_filter]
    refine countP_three_partition _ _ _ (fun r => ?_) recs
    simpa using ageGroupOf_exactly_one r.age
  · intro r hr
    refine ⟨ageGroupOf r.age, mem_ageBucket.2 ⟨hr, rfl⟩, ?_⟩
    intro g hg
    exact (mem_ageBucket.1 hg).2.symm

/-- Witness for `bucket_partition` at the documented sample records
(stress scores 25, 15, 45, 10, 30 from `mock_hrv_data.csv`). -/
theorem bucket_partition_witness :
    let recs : List Record :=
      [⟨1, 45.2, 25, 28⟩, ⟨2, 52.8, 15, 32⟩, ⟨3, 38.5, 45, 25⟩,
       ⟨4, 61.3, 10, 35⟩, ⟨5, 49.7, 30, 30⟩]
    stressBucketCount recs .low + stressBucketCount recs .medium
      + stressBucketCount recs .high = recs.length := by
  intro recs
  exact (bucket_partition recs (by decide)).1

/-- **C2**: the stress-level classifier sends `stress_score < 20` to `Low`,
`20 ≤ stress_score ≤ 35` to `Medium` and `stress_score > 35` to `High`;
in particular a score of exactly 20 is `Medium`, not `Low`. -/
theorem stress_classifier_ok :
    (∀ s : ℚ, s < 20 → stressLevelOf s = .low)
    ∧ (∀ s : ℚ, 20 ≤ s → s ≤ 35 → stressLevelOf s = .medium)
    ∧ (∀ s : ℚ, 35 < s → stressLevelOf s = .high)
    ∧ stressLevelOf 20 = .medium := by
  refine ⟨fun s hs => ?_, fun s hs1 hs2 => ?_, fun s hs => ?_, ?_⟩
  · simp [stressLevelOf, hs]
  · simp [stressLevelOf, not_lt.2 hs1, hs2]
  · have h20 : ¬ s < 20 := not_lt.2 (le_of_lt (lt_trans (by norm_num) hs))
    simp [stressLevelOf, h20, not_le.2 hs]
  · decide

/-! ## Pearson correlation (`correlations` field of the DataAgent result) -/

/-- Arithmetic mean of a list of values (0 on the empty list, as the
guarded callers never evaluate it there). -/
def mean (xs : List ℚ) : ℚ := xs.sum / (xs.length : ℚ)

/-- Sum of squared deviations from the mean; the numerator of the variance
of a series. The series has zero variance iff this sum is zero. -/
def sqDevSum (xs : List ℚ) : ℚ :=
  (xs.map (fun x => (x - mean xs) ^ 2)).sum

/-- Sum of products of deviations of the two coordinates from their means;
the numerator of the covariance of the paired series. -/
def covSum (ps : List (ℚ × ℚ)) : ℚ :=
  (ps.map (fun p =>
    (p.1 - mean (ps.map Prod.fst)) * (p.2 - mean (ps.map Prod.snd)))).sum

/-- Modelled from the spec: Pearson product-moment correlation of the
paired series, as the DataAgent's `correlations` entries
(`hrv_vs_stress`, `hrv_vs_age`, `stress_vs_age`); the pandas
implementation is not among the checked-in sources.  Returns `none` when
fewer than 2 samples or when either series has zero variance, otherwise
`covSum / √(sqDevSum₁ · sqDevSum₂)` (the shared sample-count normalizers
of covariance and the two standard deviations cancel). -/
noncomputable def correlate (ps : List (ℚ × ℚ)) : Option ℝ :=
  if ps.length < 2 then none
  else
    let vx := sqDevSum (ps.map Prod.fst)
    let vy := sqDevSum (ps.map Prod.snd)
    if vx = 0 ∨ vy = 0 then none
    else some ((covSum ps : ℝ) / Real.sqrt ((vx : ℝ) * (vy : ℝ)))

lemma list_sum_map_get (l : List α) (f : α → ℚ) :
    (l.map f).sum = ∑ i : Fin l.length, f (l.get i) := by
  conv_lhs => rw [← List.ofFn_get l]
  rw [List.map_ofFn, List.sum_ofFn]
  rfl

lemma sqDevSum_nonneg (xs : List ℚ) : 0 ≤ sqDevSum xs := by
  refine List.sum_nonneg ?_
  intro x hx
  rcases List.mem_map.1 hx with ⟨y, _, rfl⟩
  exact sq_nonneg _

lemma covSum_sq_le (ps : List (ℚ × ℚ)) :
    (covSum ps) ^ 2
      ≤ sqDevSum (ps.map Prod.fst) * sqDevSum (ps.map Prod.snd) := by
  have hx : sqDevSum (ps.map Prod.fst)
      = ∑ i : Fin ps.length, ((ps.get i).1 - mean (ps.map Prod.fst)) ^ 2 := by
    unfold sqDevSum
    rw [List.map_map, list_sum_map_get]
    refine Fintype.sum_equiv (finCongr (by simp)) _ _ (fun i => ?_)
    simp [List.getElem_map]
  have hy : sqDevSum (ps.map Prod.snd)
      = ∑ i : Fin ps.length, ((ps.get i).2 - mean (ps.map Prod.snd)) ^ 2 := by
    unfold sqDevSum
    rw [List.map_map, list_sum_map_get]
    refine Fintype.sum_equiv (finCongr (by simp)) _ _ (fun i => ?_)
    simp [List.getElem_map]
  have hc : covSum ps
      = ∑ i : Fin ps.length,
          ((ps.get i).1 - mean (ps.map Prod.fst))
            * ((ps.get i).2 - mean (ps.map Prod.snd)) := by
    unfold covSum
    rw [list_sum_map_get]
  rw [hx, hy, hc]
  exact Finset.sum_mul_sq_le_sq_mul_sq Finset.univ _ _

/-- **C3**: `correlate` returns `none` (never a number, `NaN`, or an
error) whenever there are fewer than 2 samples or either series has zero
variance, and every number it does return lies in `[-1, 1]`. -/
theorem correlate_ok (ps : List (ℚ × ℚ)) :
    (ps.length < 2 ∨ sqDevSum (ps.map Prod.fst) = 0
        ∨ sqDevSum (ps.map Prod.snd) = 0 → correlate ps = none)
    ∧ ∀ r : ℝ, correlate ps = some r → -1 ≤ r ∧ r ≤ 1 := by
  constructor
  · intro h
    unfold correlate
    rcases h with h | h | h
    · simp [h]
    · by_cases hlen : ps.length < 2 <;> simp [hlen, h]
    · by_cases hlen : ps.length < 2 <;> simp [hlen, h]
  · intro r hr
    unfold correlate at hr
    by_cases hlen : ps.length < 2
    · simp [hlen] at hr
    · set vx := sqDevSum (ps.map Prod.fst) with hvx_def
      set vy := sqDevSum (ps.map Prod.snd) with hvy_def
      by_cases hv : vx = 0 ∨ vy = 0
      · simp [hlen, hv] at hr
      · push_neg at hv
        have hvx : (0 : ℚ) < vx :=
          lt_of_le_of_ne (sqDevSum_nonneg _) (Ne.symm hv.1)
        have hvy : (0 : ℚ) < vy :=
          lt_of_le_of_ne (sqDevSum_nonneg _) (Ne.symm hv.2)
        simp only [hlen, hv.1, hv.2, or_self, if_false, if_neg,
          Option.some.injEq, false_or] at hr
        have hVpos : (0 : ℝ) < (vx : ℝ) * (vy : ℝ) := by
          positivity
        have hsq : ((covSum ps : ℝ)) ^ 2 ≤ (vx : ℝ) * (vy : ℝ) := by
          have := covSum_sq_le ps
          rw [← hvx_def, ← hvy_def] at this
          exact_mod_cast this
        have habs : |(covSum ps : ℝ)| ≤ Real.sqrt ((vx : ℝ) * (vy : ℝ)) := by
          rw [Real.le_sqrt (abs_nonneg _) hVpos.le]
          simpa [sq_abs] using hsq
        have hr1 : |r| ≤ 1 := by
          rw [← hr, abs_div, abs_of_nonneg (Real.sqrt_nonneg _)]
          exact div_le_one_of_le₀ habs (Real.sqrt_nonneg _)
        exact abs_le.1 hr1

/-- Witness for `correlate_ok` at a perfectly correlated 3-point series:
there `correlate` returns `some 1`, which the theorem places in `[-1, 1]`. -/
theorem correlate_ok_witness :
    correlate [((0 : ℚ), (0 : ℚ)), (1, 1), (2, 2)] = some 1
      ∧ (-1 ≤ (1 : ℝ) ∧ (1 : ℝ) ≤ 1) := by
  have heval : correlate [((0 : ℚ), (0 : ℚ)), (1, 1), (2, 2)] = some 1 := by
    unfold correlate
    norm_num [sqDevSum, mean, covSum]
    have h4 : √(4 : ℝ) = 2 := by
      rw [show (4 : ℝ) = 2 * 2 by norm_num,
        Real.sqrt_mul_self (by norm_num : (0 : ℝ) ≤ 2)]
    rw [h4]
    norm_num
  exact ⟨heval, (correlate_ok _).2 1 heval⟩

/-- Witness for `stress_classifier_ok` at concrete scores 15, 25 and 45. -/
theorem stress_classifier_witness :
    stressLevelOf 15 = .low ∧ stressLevelOf 25 = .medium
      ∧ stressLevelOf 45 = .high ∧ stressLevelOf 20 = .medium :=
  ⟨stress_classifier_ok.1 15 (by norm_num),
   stress_classifier_ok.2.1 25 (by norm_num) (by norm_num),
   stress_classifier_ok.2.2.1 45 (by norm_num),
   stress_classifier_ok.2.2.2⟩

/-! ## InsightAssembler: energy-mode payload (Energy Insight fields) -/

/-- One point of the `mirror_trend` series: `{date, hrv, stress, focus}`. -/
structure TrendPoint where
  date : String
  hrv : ℚ
  stress : ℚ
  focus : ℚ
  deriving Repr, DecidableEq

/-- One mirror layer: `{title, description, metrics}` with metrics as
ordered label/value pairs. -/
structure MirrorLayer where
  title : String
  description : String
  metrics : List (String × String)
  deriving Repr, DecidableEq

/-- The energy-mode (`Energy Insight`) payload documented for the DataAgent
result: `coordination_score`, `insight_summary`, `mirror_layers`,
`mirror_trend`, `energy_pattern`, plus the flat `insights` list. -/
structure InsightPayload where
  coordination_score : ℤ
  insight_summary : String
  mirror_layers : List (String × MirrorLayer)
  mirror_trend : List TrendPoint
  energy_pattern : String
  insights : List String
  deriving Repr, DecidableEq

/-- Modelled from the spec: the `focus` composite is a derived proxy, not a
raw input field; concrete weighting is an implementation choice (design
note). Average of HRV and inverted stress. -/
def focusOf (r : Record) : ℚ := (r.hrv + (100 - r.stress_score)) / 2

/-- Mean of a series with a default for the empty record set
(`ComputationDegraded` is recovered locally, never an error). -/
def meanOr (d : ℚ) (xs : List ℚ) : ℚ := if xs = [] then d else mean xs

/-- Clamp an integer score into `[0, 100]`. -/
def clampScore (x : ℤ) : ℤ := max 0 (min 100 x)

/-- Modelled from the spec: `coordination_score` is a weighted combination
of normalized HRV, inverse stress and the focus proxy, floored to an
integer and clamped to `[0, 100]`; exact constants are an implementation
choice (design note §9). -/
def coordination_score (recs : List Record) : ℤ :=
  clampScore ⌊meanOr 50 (recs.map Record.hrv) * 4 / 10
    + (100 - meanOr 50 (recs.map Record.stress_score)) * 3 / 10
    + meanOr 50 (recs.map focusOf) * 3 / 10⌋

/-- Modelled from the spec: one trend point per record of the window, with
the derived focus composite (timestamps are not part of the CSV columns,
so the record id stands in for the date label). -/
def mirrorTrend (recs : List Record) : List TrendPoint :=
  recs.map (fun r => ⟨toString r.id, r.hrv, r.stress_score, focusOf r⟩)

/-- Modelled from the spec: `energy_pattern` compares trend directionality
and falls back to a generic statement below 2 points. -/
def energyPattern (trend : List TrendPoint) : String :=
  match trend with
  | p₀ :: rest =>
    match rest.getLast? with
    | some pLast =>
      if pLast.hrv ≥ p₀.hrv then
        "Your heart rhythm is recovering while focus holds steady."
      else
        "Your heart rhythm dipped while focus rose; your body is working to match your intent."
    | none => "Your energy pattern is steady; more data will sharpen the picture."
  | [] => "Your energy pattern is steady; more data will sharpen the picture."

/-- Render a metric value, with a placeholder for missing inputs. -/
def fmtMetric (q : Option ℚ) : String :=
  match q with
  | some v => toString v
  | none => "--"

/-- Modelled from the spec: the three fixed mirror layers populated from
the latest available metric values; missing inputs render as a placeholder
value rather than omitting the layer. -/
def mirrorLayers (recs : List Record) : List (String × MirrorLayer) :=
  let lastHrv := (recs.map Record.hrv).getLast?
  let lastStress := (recs.map Record.stress_score).getLast?
  let lastFocus := (recs.map focusOf).getLast?
  [("physiology", ⟨"Physiology", "HRV / Sleep Quality / Heart Coherence",
      [("HRV", fmtMetric lastHrv)]⟩),
   ("mind", ⟨"Mind", "Stress Index / Mood Balance",
      [("Stress Index", fmtMetric lastStress)]⟩),
   ("meaning", ⟨"Meaning", "Purpose / Fulfillment",
      [("Focus", fmtMetric lastFocus)]⟩)]

/-- Modelled from the spec: the deterministic `insights` rule list, capped
at 5 entries. -/
def insightsOf (recs : List Record) : List String :=
  (["Average HRV across all records: "
      ++ toString (meanOr 0 (recs.map Record.hrv)),
    "Analysis completed on " ++ toString recs.length ++ " records"]).take 5

/-- Modelled from the spec: the energy-mode assembly
`assemble(mode, statsBundle, query)` restricted to the mirror fields. -/
def assembleEnergy (recs : List Record) : InsightPayload :=
  { coordination_score := coordination_score recs
    insight_summary := "Coordination index "
      ++ toString (coordination_score recs) ++ " over "
      ++ toString recs.length ++ " records."
    mirror_layers := mirrorLayers recs
    mirror_trend := mirrorTrend recs
    energy_pattern := energyPattern (mirrorTrend recs)
    insights := insightsOf recs }

/-- **C5**: for every input record set, including the empty one, the
energy-mode `coordination_score` is an integer (it inhabits `ℤ` by
construction) lying in the closed interval `[0, 100]`. -/
theorem coordination_score_bounded :
    ∀ recs : List Record,
      0 ≤ (assembleEnergy recs).coordination_score
        ∧ (assembleEnergy recs).coordination_score ≤ 100
        ∧ (assembleEnergy []).coordination_score ∈ Set.Icc (0 : ℤ) 100 := by
  have hb : ∀ recs : List Record,
      0 ≤ coordination_score recs ∧ coordination_score recs ≤ 100 := by
    intro recs
    unfold coordination_score clampScore
    constructor
    · exact le_max_left 0 _
    · exact max_le (by norm_num) (min_le_left _ _)
  intro recs
  exact ⟨(hb recs).1, (hb recs).2, (hb []).1, (hb []).2⟩

/-! ## ChartSpecBuilder (VizAgent chart generation) -/

/-- One declarative data series of a chart spec. -/
structure DataSeries where
  name : String
  x : List String
  y : List ℚ
  deriving Repr, DecidableEq

/-- A declarative chart specification: `chart_type`, ordered series and a
layout title derived from the plotted fields. -/
structure ChartSpec where
  chart_type : String
  series : List DataSeries
  layout_title : String
  deriving Repr, DecidableEq

/-- Modelled from the spec: the VizAgent chart builder. With a non-empty
`mirror_trend` it emits the 3-series HRV / Stress / Focus line chart keyed
by date (`chart_type = "mirror_trend"`); otherwise it falls back to the
default HRV vs stress scatter; with no plottable data it still returns a
spec, with the `chart_type` set and `series = []`.  It is a total
function: it returns a `ChartSpec` for every payload and never raises. -/
def buildChart (payload : InsightPayload) (recs : List Record) : ChartSpec :=
  if payload.mirror_trend ≠ [] then
    let dates := payload.mirror_trend.map TrendPoint.date
    { chart_type := "mirror_trend"
      series :=
        [⟨"HRV", dates, payload.mirror_trend.map TrendPoint.hrv⟩,
         ⟨"Stress", dates, payload.mirror_trend.map TrendPoint.stress⟩,
         ⟨"Focus", dates, payload.mirror_trend.map TrendPoint.focus⟩]
      layout_title := "hrv / stress / focus" }
  else if recs ≠ [] then
    { chart_type := "scatter"
      series := [⟨"HRV vs Stress", recs.map (fun r => toString r.hrv),
        recs.map Record.stress_score⟩]
      layout_title := "hrv vs stress_score" }
  else
    { chart_type := "scatter", series := [], layout_title := "no data" }

/-- **C8**: the chart builder is total (it is a function into `ChartSpec`);
with a non-empty `mirror_trend` it emits `chart_type = "mirror_trend"` with
exactly the three series HRV, Stress, Focus, each keyed by the trend dates;
otherwise it emits a scatter when per-record numeric fields are available;
with no plottable data it returns a spec with `chart_type` set and
`series = []`. -/
theorem chart_builder_ok (payload : InsightPayload) (recs : List Record) :
    (payload.mirror_trend ≠ [] →
      (buildChart payload recs).chart_type = "mirror_trend"
      ∧ (buildChart payload recs).series.map DataSeries.name
          = ["HRV", "Stress", "Focus"]
      ∧ ∀ s ∈ (buildChart payload recs).series,
          s.x = payload.mirror_trend.map TrendPoint.date)
    ∧ (payload.mirror_trend = [] → recs ≠ [] →
      (buildChart payload recs).chart_type = "scatter"
      ∧ (buildChart payload recs).series ≠ [])
    ∧ (payload.mirror_trend = [] → recs = [] →
      (buildChart payload recs).chart_type = "scatter"
      ∧ (buildChart payload recs).series = []) := by
  refine ⟨fun ht => ?_, fun ht hr => ?_, fun ht hr => ?_⟩
  · unfold buildChart
    rw [if_pos ht]
    refine ⟨rfl, rfl, ?_⟩
    intro s hs
    simp only [List.mem_cons, List.not_mem_nil, or_false] at hs
    rcases hs with rfl | rfl | rfl <;> rfl
  · simp [buildChart, ht, hr]
  · simp [buildChart, ht, hr]

/-- Witness for `chart_builder_ok` on a 1-point trend payload and on an
empty payload with no records. -/
theorem chart_builder_witness :
    (buildChart (assembleEnergy [⟨1, 45, 25, 28⟩]) []).chart_type
        = "mirror_trend"
      ∧ (buildChart
          { coordination_score := 0, insight_summary := ""
            mirror_layers := [], mirror_trend := []
            energy_pattern := "", insights := [] } []).series = [] := by
  constructor
  · exact ((chart_builder_ok (assembleEnergy [⟨1, 45, 25, 28⟩]) []).1
      (by decide)).1
  · exact ((chart_builder_ok _ []).2.2 rfl rfl).2

/-! ## NarrativeSynthesizer (NarrativeAgent, Mock vs OpenAI backend) -/

/-- The backend selected once at startup: `MockReady` when no API key is
present, `LiveReady` when one is. -/
inductive Backend where
  | mock
  | live
  deriving Repr, DecidableEq

/-- The external world visible to the Live backend: the hosted-LLM
completion oracle.  `none` models a transport failure or timeout;
`some ""` models a malformed (empty) completion.  The Mock path makes zero
external calls, so it takes the world only to share one interface. -/
structure World where
  llm : String → Option String

/-- The narrative result: `{narrative, summary, key_takeaways, tone,
length, model_name}` plus the internal fallback flag.  Both backends
return this one shape. -/
structure NarrativeResult where
  narrative : String
  summary : String
  key_takeaways : List String
  tone : String
  length : String
  model_name : String
  fallback : Bool
  deriving Repr, DecidableEq

/-- Modelled from the spec: the prompt carrying the query and a structured
summary of the payload as context for the Live completion call. -/
def buildPrompt (query : String) (payload : InsightPayload) : String :=
  "Query: " ++ query ++ " | Summary: " ++ payload.insight_summary

/-- Modelled from the spec: the deterministic Mock template generator. It
substitutes computed values into fixed templates; identical output for
identical input, zero external calls. -/
def mockNarrative (query : String) (payload : InsightPayload) : NarrativeResult :=
  { narrative := "Based on your query: \"" ++ query
      ++ "\", here is what the data tells us: " ++ payload.insight_summary
      ++ " " ++ payload.energy_pattern
    summary := payload.insight_summary
    key_takeaways := payload.insights.take 3
    tone := "professional"
    length := "medium"
    model_name := "Mock"
    fallback := false }

/-- Modelled from the spec: `synthesize(query, payload, backend)`.  The
Mock path is the pure template generator.  The Live path issues one
completion request; on transport failure, timeout, or a malformed
response it falls back to the Mock path for that single request and marks
the result as generated in fallback mode. -/
def synthesize (b : Backend) (w : World) (query : String)
    (payload : InsightPayload) : NarrativeResult :=
  match b with
  | .mock => mockNarrative query payload
  | .live =>
    match w.llm (buildPrompt query payload) with
    | some text =>
      if text = "" then { mockNarrative query payload with fallback := true }
      else
        { narrative := text
          summary := payload.insight_summary
          key_takeaways := payload.insights.take 3
          tone := "professional"
          length := "medium"
          model_name := "GPT-4o (OpenAI)"
          fallback := false }
    | none => { mockNarrative query payload with fallback := true }

lemma mockNarrative_narrative_ne_empty (query : String)
    (payload : InsightPayload) :
    (mockNarrative query payload).narrative ≠ "" := by
  intro h
  have hlen := congrArg String.length h
  simp only [mockNarrative, String.length_append] at hlen
  have h1 : String.length "Based on your query: \"" = 22 := rfl
  have h2 : String.length "" = 0 := rfl
  omega

/-- **C6**: when the Live backend fails (transport failure / timeout,
modelled by the oracle returning `none`, or a malformed empty completion),
`synthesize` still returns a result for that request: it equals the Mock
result for the same input with the fallback flag set, its narrative string
is non-empty, and it is flagged as fallback-generated.  The result
inhabits the same `NarrativeResult` shape as a successful Live response,
with every field populated by the Mock path. -/
theorem live_fallback_ok (w : World) (query : String)
    (payload : InsightPayload)
    (hfail : w.llm (buildPrompt query payload) = none
      ∨ w.llm (buildPrompt query payload) = some "") :
    synthesize .live w query payload
        = { mockNarrative query payload with fallback := true }
      ∧ (synthesize .live w query payload).narrative ≠ ""
      ∧ (synthesize .live w query payload).fallback = true := by
  have heq : synthesize .live w query payload
      = { mockNarrative query payload with fallback := true } := by
    rcases hfail with h | h <;> simp [synthesize, h]
  refine ⟨heq, ?_, by rw [heq]⟩
  rw [heq]
  simpa using mockNarrative_narrative_ne_empty query payload

/-- Witness for `live_fallback_ok` under a timed-out oracle on the empty
record set payload. -/
theorem live_fallback_witness :
    let w : World := ⟨fun _ => none⟩
    let p := assembleEnergy []
    (synthesize .live w "How is my energy?" p).fallback = true
      ∧ (synthesize .live w "How is my energy?" p).narrative ≠ "" := by
  intro w p
  exact ⟨(live_fallback_ok w "How is my energy?" p (Or.inl rfl)).2.2,
    (live_fallback_ok w "How is my energy?" p (Or.inl rfl)).2.1⟩

/-- **C7**: Mock narrative generation is a deterministic function of
`(query, payload)` alone: it makes no external call, so two runs under any
two worlds (any oracle behaviour, i.e. any repetition of the request)
produce byte-identical results. -/
theorem mock_deterministic :
    ∀ (w w' : World) (query : String) (payload : InsightPayload),
      synthesize .mock w query payload = synthesize .mock w' query payload := by
  intro w w' query payload
  rfl

/-! ## InsightOrchestrator (`POST /api/insight` handling) -/

/-- The two modes the orchestrator accepts for `/api/insight`. -/
def validModes : List String := ["energy", "longevity"]

/-- Clamp the requested window to the allowed 1–30 day range. -/
def clampWindow (d : ℤ) : ℤ := max 1 (min 30 d)

/-- The merged orchestrator response: `{insight, data, chart}`. -/
structure OrchResponse where
  insight : String
  data : InsightPayload
  chart : ChartSpec
  deriving Repr

/-- Modelled from the spec: the happy-path pipeline after validation:
fetch records, assemble, synthesize narrative and build the chart, merge. -/
def buildResponse (b : Backend) (w : World) (query : String)
    (recs : List Record) : OrchResponse :=
  let payload := assembleEnergy recs
  { insight := (synthesize b w query payload).narrative
    data := payload
    chart := buildChart payload recs }

/-- Modelled from the spec: `handle(query, mode, window)` validates
`mode ∈ {"energy", "longevity"}` first and rejects any other mode with a
`ValidationError` before computing any statistics; only a valid mode
reaches the payload-building pipeline, so no partial payload is ever
constructed for a rejected request. -/
def handle (b : Backend) (w : World) (query mode : String) (days : ℤ)
    (recs : List Record) : Except String OrchResponse :=
  if mode ∈ validModes then
    .ok (buildResponse b w query (recs.take (clampWindow days).toNat))
  else
    .error ("Invalid mode: " ++ mode)

/-- **C4**: the orchestrator accepts a request iff its mode is `"energy"`
or `"longevity"`; any other mode (e.g. `"unknown"`) yields a
`ValidationError` carrying the offending mode, produced by the guard that
runs before the statistics pipeline, so no response payload is
constructed. -/
theorem orchestrator_mode_validation (b : Backend) (w : World)
    (query mode : String) (days : ℤ) (recs : List Record) :
    ((handle b w query mode days recs).isOk = true
        ↔ (mode = "energy" ∨ mode = "longevity"))
      ∧ (mode ∉ validModes →
        handle b w query mode days recs = .error ("Invalid mode: " ++ mode)) := by
  constructor
  · by_cases hm : mode ∈ validModes
    · have : mode = "energy" ∨ mode = "longevity" := by
        simpa [validModes] using hm
      simp [handle, hm, Except.isOk, Except.toBool, this]
    · have : ¬ (mode = "energy" ∨ mode = "longevity") := by
        simpa [validModes] using hm
      simp [handle, hm, Except.isOk, Except.toBool, this]
  · intro hm
    simp [handle, hm]

/-- Witness for `orchestrator_mode_validation`: `mode = "unknown"` is
rejected with a validation error, and `mode = "energy"` is accepted. -/
theorem orchestrator_mode_witness :
    handle .mock ⟨fun _ => none⟩ "q" "unknown" 7 []
        = .error "Invalid mode: unknown"
      ∧ (handle .mock ⟨fun _ => none⟩ "q" "energy" 7 []).isOk = true := by
  constructor
  · exact (orchestrator_mode_validation .mock ⟨fun _ => none⟩ "q" "unknown" 7
      []).2 (by decide)
  · exact (orchestrator_mode_validation .mock ⟨fun _ => none⟩ "q" "energy" 7
      []).1.2 (Or.inl rfl)

/-! ## Front-end ModeContext (embedded from the JavaScript source) -/

namespace ModeContext

/-- `Object.values(MODES)` of the front-end `ModeContext`:
`MODES = { MIRROR: "mirror", SCIENCE: "science" }`. -/
def MODES : List String := ["mirror", "science"]

/-- The initial mode state: `useState(MODES.MIRROR)`. -/
def initialMode : String := "mirror"

/-- `switchMode` from `ModeProvider`: updates the state only when the
requested mode is one of `Object.values(MODES)`. -/
def switchMode (mode cur : String) : String :=
  if mode ∈ MODES then mode else cur

/-- The mode state after a sequence of `switchMode` calls from the initial
state. -/
def runSwitches (ms : List String) : String :=
  ms.foldl (fun cur m => switchMode m cur) initialMode

lemma switchMode_mem {cur : String} (m : String) (h : cur ∈ MODES) :
    switchMode m cur ∈ MODES := by
  unfold switchMode
  by_cases hm : m ∈ MODES <;> simp [hm, h]

lemma foldl_switchMode_mem (ms : List String) :
    ∀ cur, cur ∈ MODES →
      ms.foldl (fun cur m => switchMode m cur) cur ∈ MODES := by
  induction ms with
  | nil => intro cur h; simpa using h
  | cons m t ih =>
    intro cur h
    simpa using ih (switchMode m cur) (switchMode_mem m h)

end ModeContext

/-- **C9**: `currentMode` always stays in the declared `MODES` set
(`"mirror"`, `"science"`): `switchMode` leaves the state unchanged on any
string outside `Object.values(MODES)`, and no sequence of `switchMode`
calls starting from the initial state can reach an unknown mode. -/
theorem mode_state_invariant :
    (∀ m cur : String, m ∉ ModeContext.MODES →
      ModeContext.switchMode m cur = cur)
    ∧ ∀ ms : List String, ModeContext.runSwitches ms ∈ ModeContext.MODES := by
  constructor
  · intro m cur hm
    simp [ModeContext.switchMode, hm]
  · intro ms
    exact ModeContext.foldl_switchMode_mem ms ModeContext.initialMode
      (by simp [ModeContext.initialMode, ModeContext.MODES])

/-- Witness for `mode_state_invariant`: the unknown mode `"energy"` is
ignored, and a concrete call sequence containing it ends inside `MODES`. -/
theorem mode_state_witness :
    ModeContext.switchMode "energy" "mirror" = "mirror"
      ∧ ModeContext.runSwitches ["science", "energy", "bogus"]
          ∈ ModeContext.MODES :=
  ⟨mode_state_invariant.1 "energy" "mirror" (by decide),
   mode_state_invariant.2 ["science", "energy", "bogus"]⟩

/-! ## Front-end MirrorModeContent (embedded from `MirrorModeContent.jsx`)

The component is modelled as a pure function from its inputs (the
registration flag and the response prop `data`) to the view it renders.
Opaque Plotly trace and layout blobs are represented as strings; absent
JSON fields are `Option.none`.  JavaScript `||` chains on strings treat
the empty string as falsy, which `jsOrStr` reproduces; `??` on the score
is `Option.getD`. -/

namespace MirrorMode

/-- The front-end chart object of the response: the view tests
`chart.data?.length > 0` and passes `data` and `layout` to the Plot
component; `plotly_json` is the field the backend documentation names but
the view never accesses. -/
structure FrontChart where
  chart_type : Option String
  data : Option (List String)
  plotly_json : Option String
  layout : Option String
  deriving Repr, DecidableEq

/-- One rendered mirror layer: metric values may be absent
(`metric.value ?? "--"`). -/
structure FrontLayer where
  title : String
  description : String
  metrics : List (String × Option String)
  deriving Repr, DecidableEq

/-- The `data` payload of the response as the view reads it. -/
structure FrontPayload where
  coordination_score : Option ℤ
  insight_summary : Option String
  energy_pattern : Option String
  insights : Option (List String)
  mirror_layers : Option (List (String × FrontLayer))
  deriving Repr, DecidableEq

/-- The `hero` metadata of the response. -/
structure FrontHero where
  top_dialog : Option String
  mirror_summary : Option String
  deriving Repr, DecidableEq

/-- The response prop handed to `MirrorModeContent`. -/
structure FrontResponse where
  data : Option FrontPayload
  hero : Option FrontHero
  insight : Option String
  chart : Option FrontChart
  deriving Repr, DecidableEq

/-- JavaScript `a || b` for an optional string `a`: the empty string is
falsy. -/
def jsOrStr (a : Option String) (b : String) : String :=
  match a with
  | some s => if s = "" then b else s
  | none => b

/-- `FALLBACK_LAYERS` literal of `MirrorModeContent.jsx`. -/
def FALLBACK_LAYERS : List (String × FrontLayer) :=
  [("physiology", ⟨"Physiology", "HRV · Sleep Quality · Heart Coherence",
      [("HRV", some "--"), ("Sleep Quality", some "--"),
       ("Heart Coherence", some "--")]⟩),
   ("mind", ⟨"Mind", "Stress Index · Mood Balance",
      [("Stress Index", some "--"), ("Mood Balance", some "--")]⟩),
   ("meaning", ⟨"Meaning", "Purpose · Fulfillment",
      [("Purpose", some "--"), ("Fulfillment", some "--")]⟩)]

/-- `const mirrorPayload = mirrorData?.data || {}` (field access through
the optional response). -/
def mirrorPayloadOf (resp : Option FrontResponse) : Option FrontPayload :=
  resp.bind FrontResponse.data

/-- `const hasMirrorPayload = Boolean(mirrorPayload?.mirror_layers)`. -/
def hasMirrorPayload (resp : Option FrontResponse) : Bool :=
  ((mirrorPayloadOf resp).bind FrontPayload.mirror_layers).isSome

/-- `const layers = mirrorPayload?.mirror_layers || FALLBACK_LAYERS`. -/
def layersOf (resp : Option FrontResponse) : List (String × FrontLayer) :=
  ((mirrorPayloadOf resp).bind FrontPayload.mirror_layers).getD FALLBACK_LAYERS

/-- `const coordinationScore = mirrorPayload?.coordination_score ?? 78`. -/
def coordinationScoreOf (resp : Option FrontResponse) : ℤ :=
  ((mirrorPayloadOf resp).bind FrontPayload.coordination_score).getD 78

/-- `const shortInsight = mirrorPayload?.insight_summary ||
mirrorData?.insight || <fixed string>`. -/
def shortInsightOf (resp : Option FrontResponse) : String :=
  jsOrStr ((mirrorPayloadOf resp).bind FrontPayload.insight_summary)
    (jsOrStr (resp.bind FrontResponse.insight)
      "You are staying focused, though recovery is slightly below baseline.")

/-- `const energyNarrative = mirrorPayload?.energy_pattern ||
mirrorData?.insight || <fixed string>`. -/
def energyNarrativeOf (resp : Option FrontResponse) : String :=
  jsOrStr ((mirrorPayloadOf resp).bind FrontPayload.energy_pattern)
    (jsOrStr (resp.bind FrontResponse.insight)
      "Over the past few days your heart rhythm dipped while focus rose, signaling that your body is working to match your intent.")

/-- `const topDialog = mirrorMeta?.top_dialog || <fixed string>`. -/
def topDialogOf (resp : Option FrontResponse) : String :=
  jsOrStr ((resp.bind FrontResponse.hero).bind FrontHero.top_dialog)
    "Good day, traveler. Your system is waking in a gentle cadence - let us trace the waves of body and mind together."

/-- `const energySummary = mirrorMeta?.mirror_summary || <fixed string>`. -/
def energySummaryOf (resp : Option FrontResponse) : String :=
  jsOrStr ((resp.bind FrontResponse.hero).bind FrontHero.mirror_summary)
    "Your purpose alignment is strongly correlated with recovery, suggesting meaning is sustaining your nervous balance."

/-- `const quickInsights = mirrorPayload?.insights || []`. -/
def quickInsightsOf (resp : Option FrontResponse) : List String :=
  ((mirrorPayloadOf resp).bind FrontPayload.insights).getD []

/-- The chart section of the JSX:
`mirrorData?.chart && mirrorData.chart.data?.length > 0 && <section>`,
with the Plot receiving `data={mirrorData.chart.data || []}` and the
response layout. `none` means the section is not rendered. -/
def chartSectionOf (resp : Option FrontResponse) :
    Option (List String × Option String) :=
  match resp.bind FrontResponse.chart with
  | some c =>
    if (c.data.getD []).length > 0 then some (c.data.getD [], c.layout)
    else none
  | none => none

/-- The fully-populated mirror view. -/
structure FullViewModel where
  coordinationScore : ℤ
  shortInsight : String
  energyNarrative : String
  topDialog : String
  energySummary : String
  layers : List (String × FrontLayer)
  quickInsights : List String
  chartSection : Option (List String × Option String)
  deriving Repr, DecidableEq

/-- What `MirrorModeContent` renders: the sign-up prompt for an
unregistered user, the waiting prompt when the payload has no
`mirror_layers`, or the full mirror view. -/
inductive MirrorView where
  | unregistered
  | waiting
  | full (vm : FullViewModel)
  deriving Repr, DecidableEq

/-- `MirrorModeContent({ data })` as a pure view function. -/
def render (isRegistered : Bool) (resp : Option FrontResponse) : MirrorView :=
  if !isRegistered then .unregistered
  else if !hasMirrorPayload resp then .waiting
  else
    .full
      { coordinationScore := coordinationScoreOf resp
        shortInsight := shortInsightOf resp
        energyNarrative := energyNarrativeOf resp
        topDialog := topDialogOf resp
        energySummary := energySummaryOf resp
        layers := layersOf resp
        quickInsights := quickInsightsOf resp
        chartSection := chartSectionOf resp }

/-- Whether the rendered view contains the trend-chart section. -/
def rendersChart (v : MirrorView) : Bool :=
  match v with
  | .full vm => vm.chartSection.isSome
  | _ => false

/-- Whether `chart.data` of the response is a non-empty array. -/
def chartDataNonempty (resp : FrontResponse) : Bool :=
  match resp.chart with
  | some c => (c.data.getD []).length > 0
  | none => false

/-- Replace the `plotly_json` field of the response chart, leaving every
field the view reads untouched. -/
def withPlotlyJson (resp : FrontResponse) (pj : Option String) : FrontResponse :=
  { resp with chart := resp.chart.map (fun c => { c with plotly_json := pj }) }

/-- A response carrying a chart with a non-empty `data` array but no
`mirror_layers` payload. -/
def chartOnlyResponse : FrontResponse :=
  { data := none, hero := none, insight := none,
    chart := some { chart_type := some "mirror_trend",
                    data := some ["trace-hrv"],
                    plotly_json := some "plotly-blob",
                    layout := none } }

/-- A registered-user response whose payload has (empty) `mirror_layers`
and nothing else. -/
def bareMirrorResponse : FrontResponse :=
  { data := some { coordination_score := none,
                   insight_summary := none,
                   energy_pattern := none, insights := none,
                   mirror_layers := some [] },
    hero := none, insight := none, chart := none }

/-- The view model `render` produces for `bareMirrorResponse`. -/
def bareViewModel : FullViewModel :=
  { coordinationScore := 78
    shortInsight :=
      "You are staying focused, though recovery is slightly below baseline."
    energyNarrative :=
      "Over the past few days your heart rhythm dipped while focus rose, signaling that your body is working to match your intent."
    topDialog :=
      "Good day, traveler. Your system is waking in a gentle cadence - let us trace the waves of body and mind together."
    energySummary :=
      "Your purpose alignment is strongly correlated with recovery, suggesting meaning is sustaining your nervous balance."
    layers := [], quickInsights := [], chartSection := none }

lemma chartSectionOf_withPlotlyJson (resp : FrontResponse) (pj : Option String) :
    chartSectionOf (some (withPlotlyJson resp pj))
      = chartSectionOf (some resp) := by
  obtain ⟨d, h, i, c⟩ := resp
  cases c <;> rfl

lemma chartSection_isSome_iff (resp : FrontResponse) :
    (chartSectionOf (some resp)).isSome = chartDataNonempty resp := by
  cases hc : resp.chart with
  | none => simp [chartSectionOf, chartDataNonempty, hc]
  | some c =>
    by_cases hl : (c.data.getD []).length > 0 <;>
      simp [chartSectionOf, chartDataNonempty, hc, hl]

end MirrorMode

open MirrorMode in
/-- **C10, counterexample**: the claim says the mirror view renders the
trend chart if and only if `chart.data` is a non-empty array.  For a
registered user and a response carrying a non-empty `chart.data` but no
`mirror_layers` payload, the component takes the early `hasMirrorPayload`
return and renders the waiting prompt without the chart, so the
"if" direction fails. -/
theorem mirror_chart_claim_counterexample :
    ¬ (rendersChart (render true (some chartOnlyResponse)) = true
        ↔ chartDataNonempty chartOnlyResponse = true) := by
  decide

open MirrorMode in
/-- **C10, amended**: for a registered user, the mirror view renders the
trend chart iff the payload has `mirror_layers` AND `chart.data` is a
non-empty array; the view never reads `chart.plotly_json` (rendering is
invariant under replacing it); a response without `mirror_layers` renders
the waiting prompt (so `FALLBACK_LAYERS` is never the rendered layer set)
rather than failing; and whenever the full view renders, a missing
`coordination_score` becomes 78, missing `insight_summary` /
`energy_pattern` fall back (in the absence of a top-level `insight`) to
the fixed strings, and missing hero metadata becomes the fixed dialog and
summary strings. -/
theorem mirror_view_ok :
    (∀ (reg : Bool) (resp : FrontResponse) (pj : Option String),
      render reg (some (withPlotlyJson resp pj)) = render reg (some resp))
    ∧ (∀ resp : FrontResponse, hasMirrorPayload (some resp) = true →
      (rendersChart (render true (some resp)) = true
        ↔ chartDataNonempty resp = true))
    ∧ (∀ resp : FrontResponse, hasMirrorPayload (some resp) = false →
      render true (some resp) = .waiting)
    ∧ (∀ (resp : FrontResponse) (vm : FullViewModel),
      render true (some resp) = .full vm →
      (resp.data.bind FrontPayload.coordination_score = none →
          vm.coordinationScore = 78)
        ∧ (resp.data.bind FrontPayload.insight_summary = none →
          resp.insight = none →
          vm.shortInsight =
            "You are staying focused, though recovery is slightly below baseline.")
        ∧ (resp.data.bind FrontPayload.energy_pattern = none →
          resp.insight = none →
          vm.energyNarrative =
            "Over the past few days your heart rhythm dipped while focus rose, signaling that your body is working to match your intent.")
        ∧ (resp.hero = none →
          vm.topDialog =
            "Good day, traveler. Your system is waking in a gentle cadence - let us trace the waves of body and mind together."
          ∧ vm.energySummary =
            "Your purpose alignment is strongly correlated with recovery, suggesting meaning is sustaining your nervous balance.")) := by
  refine ⟨?_, ?_, ?_, ?_⟩
  · intro reg resp pj
    obtain ⟨d, h, i, c⟩ := resp
    cases c <;> rfl
  · intro resp hmp
    have hr : render true (some resp)
        = .full
          { coordinationScore := coordinationScoreOf (some resp)
            shortInsight := shortInsightOf (some resp)
            energyNarrative := energyNarrativeOf (some resp)
            topDialog := topDialogOf (some resp)
            energySummary := energySummaryOf (some resp)
            layers := layersOf (some resp)
            quickInsights := quickInsightsOf (some resp)
            chartSection := chartSectionOf (some resp) } := by
      simp [render, hmp]
    rw [hr]
    simp [rendersChart, chartSection_isSome_iff resp]
  · intro resp hmp
    simp [render, hmp]
  · intro resp vm hfull
    by_cases hmp : hasMirrorPayload (some resp) = true
    · have hr : render true (some resp)
          = .full
            { coordinationScore := coordinationScoreOf (some resp)
              shortInsight := shortInsightOf (some resp)
              energyNarrative := energyNarrativeOf (some resp)
              topDialog := topDialogOf (some resp)
              energySummary := energySummaryOf (some resp)
              layers := layersOf (some resp)
              quickInsights := quickInsightsOf (some resp)
              chartSection := chartSectionOf (some resp) } := by
        simp [render, hmp]
      rw [hfull] at hr
      injection hr with h
      subst h
      refine ⟨fun hcs => ?_, fun hins hi => ?_, fun hep hi => ?_, fun hh => ?_⟩
      · simp [coordinationScoreOf, mirrorPayloadOf, Option.bind_eq_bind, hcs]
      · simp [shortInsightOf, mirrorPayloadOf, jsOrStr, hins, hi]
      · simp [energyNarrativeOf, mirrorPayloadOf, jsOrStr, hep, hi]
      · constructor
        · simp [topDialogOf, jsOrStr, hh]
        · simp [energySummaryOf, jsOrStr, hh]
    · exfalso
      have hmp' : hasMirrorPayload (some resp) = false := by
        simpa using hmp
      have : render true (some resp) = .waiting := by
        simp [render, hmp']
      rw [hfull] at this
      exact MirrorView.noConfusion this

open MirrorMode in
/-- Witness for `mirror_view_ok` at a registered user and a response whose
payload carries only (empty) `mirror_layers`: the full view renders with
the default score 78 and the fixed fallback strings. -/
theorem mirror_view_ok_witness :
    render true (some bareMirrorResponse) = .full bareViewModel
      ∧ bareViewModel.coordinationScore = 78
      ∧ bareViewModel.topDialog =
        "Good day, traveler. Your system is waking in a gentle cadence - let us trace the waves of body and mind together." := by
  have hr : render true (some bareMirrorResponse) = .full bareViewModel := by
    decide
  refine ⟨hr, ?_, ?_⟩
  · exact (mirror_view_ok.2.2.2 bareMirrorResponse bareViewModel hr).1 rfl
  · exact ((mirror_view_ok.2.2.2 bareMirrorResponse bareViewModel hr).2.2.2
      rfl).1

end Aurora
